import Mathlib

/-!
Verification of the `st_error_boundary` package: a decorator that wraps a
callable so that unhandled exceptions are intercepted, reported through a
fixed ordered sequence of hooks, replaced by a fallback rendering, and
converted to a `None` result.

The embedding models the body of `src/st_error_boundary/error_boundary.py`.
A raised Python condition is a `PyCond`; Python's two `except` clauses in
`_wrapped` (`except (KeyboardInterrupt, SystemExit): raise` and
`except Exception as exc:`) become boolean classifiers on `PyCond`.
Side-effecting callables (the wrapped function, hooks, fallback renderers,
and the external `render_string_fallback` collaborator) are modelled as
functions returning the list of opaque side effects they performed before
returning or raising, paired with their outcome.  The boundary's own calls
into hooks, into a custom renderer, and into the string-render collaborator
are recorded as distinguished events in the observable trace, so claims
about which collaborator ran, how often, and in which order are equations
about traces.
-/

namespace StErrorBoundary

/-- An instance of a Python `Exception` subclass: the class name and message.
These are the values bound by `except Exception as exc`. -/
structure Exc where
  name : String
  msg : String
  deriving DecidableEq, Repr

/-- A raised Python condition, partitioned the way the `except` clauses of
`_wrapped` partition the `BaseException` hierarchy: `KeyboardInterrupt` and
`SystemExit` (named in the first clause), `GeneratorExit` (a `BaseException`
that is not an `Exception`), instances of `Exception` subclasses, and any
other `BaseException` subclass. -/
inductive PyCond where
  | keyboardInterrupt
  | systemExit
  | generatorExit
  | exc (e : Exc)
  | otherBase (name : String)
  deriving DecidableEq, Repr

/-- Whether a condition matches Python's `except (KeyboardInterrupt, SystemExit)`
clause (line 81 of `error_boundary.py`). -/
def matchesKbdOrExit : PyCond → Bool
  | .keyboardInterrupt => true
  | .systemExit => true
  | _ => false

/-- Whether a condition matches Python's `except Exception` clause
(lines 83 and 87 of `error_boundary.py`): exactly the instances of
`Exception` subclasses. -/
def matchesException : PyCond → Bool
  | .exc _ => true
  | _ => false

/-- The spec's "termination-class" conditions: user interrupt, explicit
process exit request, and generator/iterator teardown. -/
def isTermination : PyCond → Bool
  | .keyboardInterrupt => true
  | .systemExit => true
  | .generatorExit => true
  | _ => false

/-- An `ErrorHook`: a callable receiving the captured exception.  Its
behaviour is the list of opaque side effects it performs, and `none`
(returned normally) or `some c` (raised condition `c`). -/
abbrev Hook := Exc → List Nat × Option PyCond

/-- A `FallbackRenderer`: a callable receiving the captured exception,
performing side effects and possibly raising. -/
abbrev Renderer := Exc → List Nat × Option PyCond

/-- The behaviour of the external `render_string_fallback` collaborator
(imported from the `plugins` module; an external UI collaborator, out of
the boundary's scope).  It receives the fallback string, performs side
effects and possibly raises. -/
abbrev Rsf := String → List Nat × Option PyCond

/-- Observable events of one wrapped invocation.  `hookCalled i e` is the
boundary invoking the `i`-th hook with exception `e` (line 86);
`rendererCalled e` is the boundary invoking a `FallbackRenderer` fallback
with `e` (line 72); `renderStringCalled s` is the boundary invoking the
external `render_string_fallback` collaborator with the string `s`
(line 74); `effect n` is an opaque side effect performed inside the wrapped
function, a hook, a renderer, or the collaborator. -/
inductive Event where
  | hookCalled (i : Nat) (e : Exc)
  | rendererCalled (e : Exc)
  | renderStringCalled (s : String)
  | effect (n : Nat)
  deriving DecidableEq, Repr

/-- The `fallback` argument: either a display string or a `FallbackRenderer`
callable.  The source dispatches on `callable(fallback)`; strings are not
callable, so the two forms are a tagged union. -/
inductive Fallback where
  | str (s : String)
  | renderer (r : Renderer)

/-- The `on_error` argument: a single hook (callable) or an iterable of
hooks.  The source dispatches on `callable(on_error)`. -/
inductive OnError where
  | single (h : Hook)
  | many (hs : List Hook)

/-- The state captured by the closures `error_boundary` creates: the
normalized hook sequence and the fallback. -/
structure Boundary where
  hooks : List Hook
  fallback : Fallback

/-- Lines 65–68 of `error_boundary.py`: `if not callable(on_error):
hooks = list(on_error) else: hooks = [on_error]`.  A single hook becomes a
one-element sequence; an iterable is materialized into a fixed list. -/
def error_boundary (on_error : OnError) (fallback : Fallback) : Boundary :=
  match on_error with
  | .many hs => { hooks := hs, fallback := fallback }
  | .single h => { hooks := [h], fallback := fallback }

/-- Lines 70–74 (`_render_fallback`): if `fallback` is callable, invoke it
with the exception; otherwise invoke the external `render_string_fallback`
collaborator with the fallback string.  Returns the trace of the dispatch
and `some c` when the invoked callable raised `c`. -/
def _render_fallback (rsf : Rsf) (fallback : Fallback) (exc : Exc) :
    List Event × Option PyCond :=
  match fallback with
  | .renderer r =>
      (Event.rendererCalled exc :: (r exc).1.map Event.effect, (r exc).2)
  | .str s =>
      (Event.renderStringCalled s :: (rsf s).1.map Event.effect, (rsf s).2)

/-- Lines 84–89: `for hook in hooks: try: hook(exc) except Exception: pass`.
Each hook is invoked in order with the captured exception; a hook raising
an `Exception` is swallowed and the loop continues; a hook raising any
other condition (not matched by `except Exception`) escapes the loop, which
the second component reports as `some c`.  `i` is the position of the first
hook in the original sequence. -/
def runHooks : List Hook → Exc → Nat → List Event × Option PyCond
  | [], _, _ => ([], none)
  | h :: rest, exc, i =>
      match (h exc).2 with
      | none =>
          (Event.hookCalled i exc :: (h exc).1.map Event.effect
              ++ (runHooks rest exc (i + 1)).1,
            (runHooks rest exc (i + 1)).2)
      | some c =>
          if matchesException c then
            (Event.hookCalled i exc :: (h exc).1.map Event.effect
                ++ (runHooks rest exc (i + 1)).1,
              (runHooks rest exc (i + 1)).2)
          else
            (Event.hookCalled i exc :: (h exc).1.map Event.effect, some c)

/-- Lines 78–91 (`_wrapped`): invoke the wrapped function; on normal return
pass the value through; re-raise `KeyboardInterrupt` and `SystemExit`; on a
raised `Exception` run hook dispatch then fallback dispatch and return
`None` (modelled as `Except.ok none`); any other condition matches no
clause and propagates.  A condition escaping hook dispatch or fallback
dispatch propagates out (the handler does not re-enter the boundary).
The wrapped function `f` maps its argument to its performed side effects
and its outcome (`Except.ok v` for a normal return of `v`). -/
def _wrapped {α β : Type} (rsf : Rsf) (b : Boundary)
    (f : α → List Nat × Except PyCond β) (a : α) :
    List Event × Except PyCond (Option β) :=
  match (f a).2 with
  | .ok v => ((f a).1.map Event.effect, .ok (some v))
  | .error c =>
      if matchesKbdOrExit c then ((f a).1.map Event.effect, .error c)
      else
        match c with
        | .exc exc =>
            match (runHooks b.hooks exc 0).2 with
            | some c2 =>
                ((f a).1.map Event.effect ++ (runHooks b.hooks exc 0).1,
                  .error c2)
            | none =>
                match (_render_fallback rsf b.fallback exc).2 with
                | some c3 =>
                    ((f a).1.map Event.effect ++ (runHooks b.hooks exc 0).1
                        ++ (_render_fallback rsf b.fallback exc).1,
                      .error c3)
                | none =>
                    ((f a).1.map Event.effect ++ (runHooks b.hooks exc 0).1
                        ++ (_render_fallback rsf b.fallback exc).1,
                      .ok none)
        | c' => ((f a).1.map Event.effect, .error c')

/-- A Python function value with its identity metadata (`__name__`,
`__doc__`) and its behaviour; `ε` is the type of its recorded side
effects (`Nat` for opaque application code, `Event` for the wrapper). -/
structure PyFunc (ε α β : Type) where
  name : String
  doc : String
  behavior : α → List ε × Except PyCond β

/-- Lines 76–78 (`_decorator` with `@wraps(func)`): wrap a function with
the interception core; `functools.wraps` copies the original function's
name and documentation onto the wrapper. -/
def _decorator {α β : Type} (rsf : Rsf) (b : Boundary)
    (func : PyFunc Nat α β) : PyFunc Event α (Option β) :=
  { name := func.name
    doc := func.doc
    behavior := fun a => _wrapped rsf b func.behavior a }

/-- Specification-side description of a completed hook dispatch: every hook
in order, each preceded by its call event, none escaping. -/
def hookDispatchTrace : List Hook → Exc → Nat → List Event
  | [], _, _ => []
  | h :: rest, exc, i =>
      Event.hookCalled i exc :: (h exc).1.map Event.effect
        ++ hookDispatchTrace rest exc (i + 1)

/-- Whether an event is the boundary invoking one of the two fallback
paths (a custom renderer or the string-render collaborator). -/
def isFallbackInvocation : Event → Bool
  | .rendererCalled _ => true
  | .renderStringCalled _ => true
  | _ => false

/-- The single fallback-invocation event that `_render_fallback` emits for
a given fallback configuration and captured exception. -/
def fallbackEvent : Fallback → Exc → Event
  | .renderer _, e => Event.rendererCalled e
  | .str s, _ => Event.renderStringCalled s

/-! Concrete callables used to instantiate the theorems. -/

/-- A concrete ordinary exception. -/
def wExc : Exc := { name := "RuntimeError", msg := "x" }

/-- A concrete behaviour for the external string-render collaborator:
performs one effect and returns. -/
def wRsf : Rsf := fun _ => ([7], none)

/-- A concrete hook: performs one effect and returns. -/
def wHookA : Hook := fun _ => ([1], none)

/-- A concrete hook that raises an ordinary error after no effects. -/
def wHookBad : Hook := fun _ => ([], some (PyCond.exc { name := "ValueError", msg := "hook boom" }))

/-- A concrete wrapped function that performs one effect then raises an
ordinary error. -/
def wFunc : Nat → List Nat × Except PyCond Nat :=
  fun n => ([n], Except.error (PyCond.exc wExc))

/-- A concrete wrapped function that returns normally. -/
def wFuncOk : Nat → List Nat × Except PyCond Nat :=
  fun n => ([n], Except.ok (n + 1))

/-- A concrete wrapped function that raises `KeyboardInterrupt`. -/
def wFuncKI : Nat → List Nat × Except PyCond Nat :=
  fun n => ([n], Except.error PyCond.keyboardInterrupt)

/-- A concrete boundary: one benign hook, string fallback. -/
def wB : Boundary := error_boundary (OnError.many [wHookA]) (Fallback.str "Oops")

/-! Helper lemmas about the interception core. -/

/-- Unfolding `_wrapped` when the wrapped function raises an ordinary error
and hook dispatch completes and the fallback path completes. -/
theorem wrapped_raise_ok {α β : Type} (rsf : Rsf) (b : Boundary)
    (f : α → List Nat × Except PyCond β) (a : α) (es : List Nat) (exc : Exc)
    (hf : f a = (es, Except.error (PyCond.exc exc)))
    (hh : (runHooks b.hooks exc 0).2 = none)
    (hr : (_render_fallback rsf b.fallback exc).2 = none) :
    _wrapped rsf b f a =
      (es.map Event.effect ++ (runHooks b.hooks exc 0).1
          ++ (_render_fallback rsf b.fallback exc).1,
        Except.ok none) := by
  simp [_wrapped, hf, hh, hr, matchesKbdOrExit]

/-- Unfolding `_wrapped` when the wrapped function raises an ordinary error
and a condition escapes hook dispatch. -/
theorem wrapped_raise_hook_escape {α β : Type} (rsf : Rsf) (b : Boundary)
    (f : α → List Nat × Except PyCond β) (a : α) (es : List Nat) (exc : Exc)
    (c : PyCond)
    (hf : f a = (es, Except.error (PyCond.exc exc)))
    (hh : (runHooks b.hooks exc 0).2 = some c) :
    _wrapped rsf b f a =
      (es.map Event.effect ++ (runHooks b.hooks exc 0).1, Except.error c) := by
  simp [_wrapped, hf, hh, matchesKbdOrExit]

/-- Unfolding `_wrapped` when the wrapped function raises an ordinary
error, hook dispatch completes, and the fallback path raises. -/
theorem wrapped_raise_fallback_escape {α β : Type} (rsf : Rsf) (b : Boundary)
    (f : α → List Nat × Except PyCond β) (a : α) (es : List Nat) (exc : Exc)
    (c : PyCond)
    (hf : f a = (es, Except.error (PyCond.exc exc)))
    (hh : (runHooks b.hooks exc 0).2 = none)
    (hr : (_render_fallback rsf b.fallback exc).2 = some c) :
    _wrapped rsf b f a =
      (es.map Event.effect ++ (runHooks b.hooks exc 0).1
          ++ (_render_fallback rsf b.fallback exc).1,
        Except.error c) := by
  simp [_wrapped, hf, hh, hr, matchesKbdOrExit]

/-- A termination-class condition is not matched by `except Exception`. -/
theorem termination_not_exception (c : PyCond) (h : isTermination c = true) :
    matchesException c = false := by
  cases c <;> simp_all [isTermination, matchesException]

/-- When every hook raises at most ordinary errors, hook dispatch visits
every hook in order and completes: the loop of lines 84–89 produces the
full dispatch trace and lets no condition escape. -/
theorem runHooks_all_ordinary (hs : List Hook) (exc : Exc) (i : Nat)
    (h1 : ∀ h ∈ hs, ∀ c, (h exc).2 = some c → matchesException c = true) :
    runHooks hs exc i = (hookDispatchTrace hs exc i, none) := by
  induction hs generalizing i with
  | nil => simp [runHooks, hookDispatchTrace]
  | cons h rest ih =>
      have hrest : ∀ h' ∈ rest, ∀ c, (h' exc).2 = some c →
          matchesException c = true :=
        fun h' hm => h1 h' (List.mem_cons_of_mem _ hm)
      have ihe := ih (i + 1) hrest
      cases hp : (h exc).2 with
      | none => simp [runHooks, hookDispatchTrace, hp, ihe]
      | some c =>
          have hm := h1 h (List.mem_cons_self _ _) c hp
          simp [runHooks, hookDispatchTrace, hp, hm, ihe]

/-- When the hooks before position `hs1.length` raise at most ordinary
errors and the hook at that position raises a condition not matched by
`except Exception`, the loop of lines 84–89 stops there: the hooks after
it are never invoked and the condition escapes. -/
theorem runHooks_escape (hs1 : List Hook) (h : Hook) (hs2 : List Hook)
    (exc : Exc) (c : PyCond) (i : Nat)
    (h1 : ∀ h' ∈ hs1, ∀ c', (h' exc).2 = some c' → matchesException c' = true)
    (hc : (h exc).2 = some c) (hne : matchesException c = false) :
    runHooks (hs1 ++ h :: hs2) exc i =
      (hookDispatchTrace hs1 exc i
          ++ Event.hookCalled (i + hs1.length) exc
            :: (h exc).1.map Event.effect,
        some c) := by
  induction hs1 generalizing i with
  | nil => simp [runHooks, hookDispatchTrace, hc, hne]
  | cons h' rest ih =>
      have hrest : ∀ x ∈ rest, ∀ c', (x exc).2 = some c' →
          matchesException c' = true :=
        fun x hx => h1 x (List.mem_cons_of_mem _ hx)
      have ihe := ih (i + 1) hrest
      cases hp : (h' exc).2 with
      | none =>
          simp [runHooks, hookDispatchTrace, hp, ihe,
            Nat.add_assoc, Nat.add_comm, Nat.add_left_comm]
      | some c' =>
          have hm := h1 h' (List.mem_cons_self _ _) c' hp
          simp [runHooks, hookDispatchTrace, hp, hm, ihe,
            Nat.add_assoc, Nat.add_comm, Nat.add_left_comm]

/-! Claim theorems. -/

/-- C1: for every boundary and every wrapped function that raises an
ordinary error (an `Exception` instance), when hook dispatch and the
fallback path complete, the wrapped call returns the no-result sentinel
(`Except.ok none`, Python's `None`) — never the original exception — and
only after hook dispatch and fallback dispatch have both run; the trace
contains exactly the function's effects before the raise point, so no code
of the wrapped function after the raise executes. -/
theorem ordinary_error_yields_sentinel {α β : Type} (rsf : Rsf) (b : Boundary)
    (f : α → List Nat × Except PyCond β) (a : α) (es : List Nat) (exc : Exc)
    (hf : f a = (es, Except.error (PyCond.exc exc)))
    (hh : (runHooks b.hooks exc 0).2 = none)
    (hr : (_render_fallback rsf b.fallback exc).2 = none) :
    _wrapped rsf b f a =
      (es.map Event.effect ++ (runHooks b.hooks exc 0).1
          ++ (_render_fallback rsf b.fallback exc).1,
        Except.ok none) :=
  wrapped_raise_ok rsf b f a es exc hf hh hr

/-- Witness for C1 at a concrete boundary, function and argument. -/
theorem ordinary_error_yields_sentinel_witness :
    _wrapped wRsf wB wFunc 5 =
      ([Event.effect 5, Event.hookCalled 0 wExc, Event.effect 1,
        Event.renderStringCalled "Oops", Event.effect 7],
       Except.ok none) :=
  ordinary_error_yields_sentinel wRsf wB wFunc 5 [5] wExc rfl rfl rfl

/-- C2: for every boundary, if the wrapped function raises a
termination-class condition (`KeyboardInterrupt`, `SystemExit`, or
`GeneratorExit`), the wrapped call propagates exactly that condition
unchanged, and its trace holds only the function's own effects: zero hooks
run and no fallback is rendered. -/
theorem termination_condition_propagates {α β : Type} (rsf : Rsf)
    (b : Boundary) (f : α → List Nat × Except PyCond β) (a : α)
    (es : List Nat) (c : PyCond)
    (hf : f a = (es, Except.error c)) (hc : isTermination c = true) :
    _wrapped rsf b f a = (es.map Event.effect, Except.error c) := by
  cases c with
  | keyboardInterrupt => simp [_wrapped, hf, matchesKbdOrExit]
  | systemExit => simp [_wrapped, hf, matchesKbdOrExit]
  | generatorExit => simp [_wrapped, hf, matchesKbdOrExit]
  | exc e => simp [isTermination] at hc
  | otherBase n => simp [isTermination] at hc

/-- Witness for C2: a `KeyboardInterrupt` propagates with no hook or
fallback event. -/
theorem termination_condition_propagates_witness :
    _wrapped wRsf wB wFuncKI 3 =
      ([Event.effect 3], Except.error PyCond.keyboardInterrupt) :=
  termination_condition_propagates wRsf wB wFuncKI 3 [3] PyCond.keyboardInterrupt rfl rfl

/-- C3: for every boundary and every wrapped function, a normal return
passes through unchanged (`Except.ok (some v)` models Python returning
`v`), and the trace holds only the function's own effects: no hook and no
fallback runs. -/
theorem normal_return_passes_through {α β : Type} (rsf : Rsf) (b : Boundary)
    (f : α → List Nat × Except PyCond β) (a : α) (es : List Nat) (v : β)
    (hf : f a = (es, Except.ok v)) :
    _wrapped rsf b f a = (es.map Event.effect, Except.ok (some v)) := by
  simp [_wrapped, hf]

/-- Witness for C3 at a concrete function. -/
theorem normal_return_passes_through_witness :
    _wrapped wRsf wB wFuncOk 4 = ([Event.effect 4], Except.ok (some 5)) :=
  normal_return_passes_through wRsf wB wFuncOk 4 [4] 5 rfl

/-- A concrete hook that raises `KeyboardInterrupt` after one effect. -/
def wHookKI : Hook := fun _ => ([2], some PyCond.keyboardInterrupt)

/-- A concrete boundary whose first hook raises an ordinary error. -/
def wB4 : Boundary := error_boundary (OnError.many [wHookBad, wHookA]) (Fallback.str "Oops")

/-- A concrete boundary whose second hook raises `KeyboardInterrupt`. -/
def wB5 : Boundary := error_boundary (OnError.many [wHookA, wHookKI]) (Fallback.str "Oops")

/-- C4: for every boundary with hooks `[h1, …, hn]` and every wrapped
function raising an ordinary error, when no hook raises a non-`Exception`
condition the hooks are invoked strictly sequentially in construction
order, each with the captured exception as sole input (the trace is the
full dispatch trace `hookCalled 0, hookCalled 1, …`); a hook raising an
ordinary error is swallowed completely (no event beyond its own, no change
of outcome), the remaining hooks still run, and the fallback ultimately
dispatched — trace and outcome — is exactly `_render_fallback` of the
boundary's configured fallback, unchanged by hook failures. -/
theorem hooks_run_in_order_and_failures_swallowed {α β : Type} (rsf : Rsf)
    (b : Boundary) (f : α → List Nat × Except PyCond β) (a : α)
    (es : List Nat) (exc : Exc)
    (hf : f a = (es, Except.error (PyCond.exc exc)))
    (h1 : ∀ h ∈ b.hooks, ∀ c, (h exc).2 = some c → matchesException c = true) :
    (_wrapped rsf b f a).1 =
        es.map Event.effect ++ hookDispatchTrace b.hooks exc 0
          ++ (_render_fallback rsf b.fallback exc).1
      ∧ (_wrapped rsf b f a).2 =
        ((_render_fallback rsf b.fallback exc).2.elim
          (Except.ok none) Except.error) := by
  have hq := runHooks_all_ordinary b.hooks exc 0 h1
  cases hr : (_render_fallback rsf b.fallback exc).2 with
  | none =>
      have he := wrapped_raise_ok rsf b f a es exc hf (by rw [hq]) hr
      rw [he, hq]
      exact ⟨rfl, rfl⟩
  | some c3 =>
      have he := wrapped_raise_fallback_escape rsf b f a es exc c3 hf
        (by rw [hq]) hr
      rw [he, hq]
      exact ⟨rfl, rfl⟩

/-- Witness for C4: first hook raises an ordinary error, second hook still
runs, fallback unchanged, sentinel returned. -/
theorem hooks_run_in_order_and_failures_swallowed_witness :
    (_wrapped wRsf wB4 wFunc 5).1 =
        [Event.effect 5, Event.hookCalled 0 wExc, Event.hookCalled 1 wExc,
          Event.effect 1, Event.renderStringCalled "Oops", Event.effect 7]
      ∧ (_wrapped wRsf wB4 wFunc 5).2 = Except.ok none := by
  have h := hooks_run_in_order_and_failures_swallowed wRsf wB4 wFunc 5 [5] wExc
    rfl (by
      intro h hm c hc
      rcases List.mem_cons.mp hm with rfl | hm2
      · simp [wHookBad] at hc
        simp [← hc, matchesException]
      · rcases List.mem_cons.mp hm2 with rfl | hm3
        · simp [wHookA] at hc
        · cases hm3)
  exact ⟨h.1.trans (by rfl), h.2.trans (by rfl)⟩

/-- C5: for every boundary, if during hook dispatch a hook raises a
termination-class condition, that condition propagates out of the wrapped
call immediately and unchanged; the trace ends at the raising hook's
dispatch, so the remaining hooks are skipped and the fallback is not
dispatched. -/
theorem hook_termination_skips_rest_and_fallback {α β : Type} (rsf : Rsf)
    (b : Boundary) (f : α → List Nat × Except PyCond β) (a : α)
    (es : List Nat) (exc : Exc) (hs1 : List Hook) (h : Hook)
    (hs2 : List Hook) (c : PyCond)
    (hb : b.hooks = hs1 ++ h :: hs2)
    (hf : f a = (es, Except.error (PyCond.exc exc)))
    (h1 : ∀ h' ∈ hs1, ∀ c', (h' exc).2 = some c' → matchesException c' = true)
    (hc : (h exc).2 = some c)
    (ht : isTermination c = true) :
    _wrapped rsf b f a =
      (es.map Event.effect ++ hookDispatchTrace hs1 exc 0
          ++ Event.hookCalled hs1.length exc :: (h exc).1.map Event.effect,
        Except.error c) := by
  have hne := termination_not_exception c ht
  have hq := runHooks_escape hs1 h hs2 exc c 0 h1 hc hne
  rw [← hb] at hq
  have he := wrapped_raise_hook_escape rsf b f a es exc c hf (by rw [hq])
  rw [he, hq]
  simp

/-- Witness for C5: the second hook raises `KeyboardInterrupt`; the trace
stops at it (no fallback event) and the interrupt propagates. -/
theorem hook_termination_skips_rest_and_fallback_witness :
    _wrapped wRsf wB5 wFunc 5 =
      ([Event.effect 5, Event.hookCalled 0 wExc, Event.effect 1,
        Event.hookCalled 1 wExc, Event.effect 2],
       Except.error PyCond.keyboardInterrupt) := by
  have h := hook_termination_skips_rest_and_fallback wRsf wB5 wFunc 5 [5] wExc
    [wHookA] wHookKI [] PyCond.keyboardInterrupt rfl rfl
    (by
      intro h hm c hc
      rcases List.mem_cons.mp hm with rfl | hm2
      · simp [wHookA] at hc
      · cases hm2)
    rfl rfl
  exact h.trans (by rfl)

/-- A concrete custom renderer: performs one effect and returns. -/
def wRenderer : Renderer := fun _ => ([9], none)

/-- A concrete boundary with no hooks and a custom renderer fallback. -/
def wB6 : Boundary := error_boundary (OnError.many []) (Fallback.renderer wRenderer)

/-- A concrete collaborator behaviour that raises an ordinary error. -/
def wRsfBad : Rsf :=
  fun _ => ([8], some (PyCond.exc { name := "StreamlitAPIException", msg := "bad" }))

/-- A concrete wrapped function that raises `GeneratorExit`. -/
def wFuncGE : Nat → List Nat × Except PyCond Nat :=
  fun n => ([n], Except.error PyCond.generatorExit)

/-- Opaque side effects are not fallback invocations. -/
theorem filter_effect_map (l : List Nat) :
    (l.map Event.effect).filter isFallbackInvocation = [] := by
  induction l with
  | nil => rfl
  | cons x xs ih => simp [isFallbackInvocation, ih]

/-- Hook dispatch emits no fallback-invocation event. -/
theorem runHooks_no_fallback_invocation (hs : List Hook) (exc : Exc) (i : Nat) :
    ((runHooks hs exc i).1).filter isFallbackInvocation = [] := by
  induction hs generalizing i with
  | nil => simp [runHooks]
  | cons h rest ih =>
      have ihe := ih (i + 1)
      cases hp : (h exc).2 with
      | none =>
          simp [runHooks, hp, List.filter_append, filter_effect_map, ihe,
            isFallbackInvocation]
      | some c =>
          by_cases hm : matchesException c
          · simp [runHooks, hp, hm, List.filter_append, filter_effect_map,
              ihe, isFallbackInvocation]
          · simp [runHooks, hp, hm, List.filter_append, filter_effect_map,
              isFallbackInvocation]

/-- `_render_fallback` emits exactly one fallback-invocation event: the
renderer call with the captured exception, or the collaborator call with
the literal fallback string. -/
theorem render_fallback_single_invocation (rsf : Rsf) (fb : Fallback)
    (exc : Exc) :
    ((_render_fallback rsf fb exc).1).filter isFallbackInvocation =
      [fallbackEvent fb exc] := by
  cases fb with
  | str s =>
      simp [_render_fallback, fallbackEvent, isFallbackInvocation,
        filter_effect_map]
  | renderer r =>
      simp [_render_fallback, fallbackEvent, isFallbackInvocation,
        filter_effect_map]

/-- C6: for every boundary and every intercepted ordinary error, fallback
dispatch selects exactly one of two mutually exclusive paths: the whole
invocation trace contains exactly one fallback-invocation event — the
renderer invoked with the captured exception when `fallback` is a renderer
(the string-render collaborator is then never invoked), or the
string-render collaborator invoked with the literal fallback string, with
no templating, interpolation, or truncation, when `fallback` is a string
(the renderer event then never occurs). -/
theorem fallback_dispatch_exclusive {α β : Type} (rsf : Rsf) (b : Boundary)
    (f : α → List Nat × Except PyCond β) (a : α) (es : List Nat) (exc : Exc)
    (hf : f a = (es, Except.error (PyCond.exc exc)))
    (hh : (runHooks b.hooks exc 0).2 = none) :
    ((_wrapped rsf b f a).1).filter isFallbackInvocation =
      [fallbackEvent b.fallback exc] := by
  cases hr : (_render_fallback rsf b.fallback exc).2 with
  | none =>
      rw [wrapped_raise_ok rsf b f a es exc hf hh hr]
      simp [List.filter_append, filter_effect_map,
        runHooks_no_fallback_invocation, render_fallback_single_invocation]
  | some c3 =>
      rw [wrapped_raise_fallback_escape rsf b f a es exc c3 hf hh hr]
      simp [List.filter_append, filter_effect_map,
        runHooks_no_fallback_invocation, render_fallback_single_invocation]

/-- Witness for C6: with a string fallback the only fallback-invocation
event is the collaborator call with the literal string; with a renderer
fallback it is the renderer call with the captured exception. -/
theorem fallback_dispatch_exclusive_witness :
    ((_wrapped wRsf wB wFunc 5).1).filter isFallbackInvocation =
        [Event.renderStringCalled "Oops"]
      ∧ ((_wrapped wRsf wB6 wFunc 5).1).filter isFallbackInvocation =
        [Event.rendererCalled wExc] :=
  ⟨fallback_dispatch_exclusive wRsf wB wFunc 5 [5] wExc rfl rfl,
   fallback_dispatch_exclusive wRsf wB6 wFunc 5 [5] wExc rfl rfl⟩

/-- C7: if the fallback path itself (custom renderer, or the string-render
delegation) raises an ordinary error during an intercepted invocation,
that error is not caught again by the same invocation: the wrapped call's
outcome is that error, and the trace shows a single pass through the
boundary (function effects, one hook dispatch, one fallback dispatch — no
re-entry). -/
theorem fallback_failure_propagates {α β : Type} (rsf : Rsf) (b : Boundary)
    (f : α → List Nat × Except PyCond β) (a : α) (es : List Nat) (exc : Exc)
    (c : PyCond)
    (hf : f a = (es, Except.error (PyCond.exc exc)))
    (hh : (runHooks b.hooks exc 0).2 = none)
    (hr : (_render_fallback rsf b.fallback exc).2 = some c)
    (_hord : matchesException c = true) :
    _wrapped rsf b f a =
      (es.map Event.effect ++ (runHooks b.hooks exc 0).1
          ++ (_render_fallback rsf b.fallback exc).1,
        Except.error c) :=
  wrapped_raise_fallback_escape rsf b f a es exc c hf hh hr

/-- Witness for C7: the collaborator raises; its error propagates out. -/
theorem fallback_failure_propagates_witness :
    _wrapped wRsfBad wB wFunc 5 =
      ([Event.effect 5, Event.hookCalled 0 wExc, Event.effect 1,
        Event.renderStringCalled "Oops", Event.effect 8],
       Except.error (PyCond.exc { name := "StreamlitAPIException", msg := "bad" })) := by
  have h := fallback_failure_propagates wRsfBad wB wFunc 5 [5] wExc
    (PyCond.exc { name := "StreamlitAPIException", msg := "bad" }) rfl rfl rfl rfl
  exact h.trans (by rfl)

/-- C8: at construction, a single hook passed as `on_error` is normalized
into a one-element sequence; a collection is materialized into exactly the
supplied fixed ordered sequence; the fallback is stored as given; and the
empty collection is legal and means no hooks run — a failing invocation of
a boundary with no hooks produces only the wrapped function's effects and
the fallback dispatch, with no hook-call event.  Construction itself is a
pure value constructor (lines 65–68 invoke no hook and no renderer). -/
theorem construction_normalizes_hooks {α β : Type} (h : Hook)
    (hs : List Hook) (fb : Fallback) (rsf : Rsf)
    (f : α → List Nat × Except PyCond β) (a : α) (es : List Nat) (exc : Exc)
    (hf : f a = (es, Except.error (PyCond.exc exc))) :
    (error_boundary (OnError.single h) fb).hooks = [h]
  ∧ (error_boundary (OnError.many hs) fb).hooks = hs
  ∧ (error_boundary (OnError.single h) fb).fallback = fb
  ∧ (error_boundary (OnError.many hs) fb).fallback = fb
  ∧ (_wrapped rsf (error_boundary (OnError.many []) fb) f a).1 =
      es.map Event.effect ++ (_render_fallback rsf fb exc).1 := by
  refine ⟨rfl, rfl, rfl, rfl, ?_⟩
  have hq : runHooks (error_boundary (OnError.many []) fb).hooks exc 0 =
      ([], none) := rfl
  cases hr : (_render_fallback rsf fb exc).2 with
  | none =>
      rw [wrapped_raise_ok rsf _ f a es exc hf (by rw [hq]) hr, hq]
      simp [error_boundary]
  | some c3 =>
      rw [wrapped_raise_fallback_escape rsf _ f a es exc c3 hf (by rw [hq]) hr,
        hq]
      simp [error_boundary]

/-- Witness for C8 at concrete hooks, fallback and invocation. -/
theorem construction_normalizes_hooks_witness :
    (error_boundary (OnError.single wHookA) (Fallback.str "Oops")).hooks = [wHookA]
  ∧ (error_boundary (OnError.many [wHookBad, wHookA]) (Fallback.str "Oops")).hooks
      = [wHookBad, wHookA]
  ∧ (error_boundary (OnError.single wHookA) (Fallback.str "Oops")).fallback
      = Fallback.str "Oops"
  ∧ (error_boundary (OnError.many [wHookBad, wHookA]) (Fallback.str "Oops")).fallback
      = Fallback.str "Oops"
  ∧ (_wrapped wRsf (error_boundary (OnError.many []) (Fallback.str "Oops")) wFunc 5).1 =
      [Event.effect 5, Event.renderStringCalled "Oops", Event.effect 7] := by
  have h := construction_normalizes_hooks wHookA [wHookBad, wHookA]
    (Fallback.str "Oops") wRsf wFunc 5 [5] wExc rfl
  exact ⟨h.1, h.2.1, h.2.2.1, h.2.2.2.1, h.2.2.2.2.trans (by rfl)⟩

/-- C9: a callable wrapped via the decorator entry point keeps the identity
metadata (name, documentation) of the original unwrapped callable, as
copied by `functools.wraps`. -/
theorem wrapped_preserves_identity_metadata {α β : Type} (rsf : Rsf)
    (b : Boundary) (func : PyFunc Nat α β) :
    (_decorator rsf b func).name = func.name
      ∧ (_decorator rsf b func).doc = func.doc :=
  ⟨rfl, rfl⟩

/-- C10: the class of intercepted conditions is exactly the `Exception`
subclasses: any raised condition outside it — `KeyboardInterrupt` and
`SystemExit` via the explicit re-raise, `GeneratorExit` and every other
`BaseException` because the catch-all clause matches `Exception` only —
propagates unchanged with no hook-call and no fallback event in the trace;
and every `Exception` instance is intercepted (sentinel outcome when hook
and fallback dispatch complete). -/
theorem intercepted_class_is_exactly_exception {α β : Type} (rsf : Rsf)
    (b : Boundary) (f : α → List Nat × Except PyCond β) (a : α)
    (es : List Nat) (c : PyCond)
    (hf : f a = (es, Except.error c)) :
    (matchesException c = false →
        _wrapped rsf b f a = (es.map Event.effect, Except.error c))
  ∧ (∀ e, c = PyCond.exc e → (runHooks b.hooks e 0).2 = none →
      (_render_fallback rsf b.fallback e).2 = none →
      (_wrapped rsf b f a).2 = Except.ok none) := by
  constructor
  · intro hc
    cases c with
    | keyboardInterrupt => simp [_wrapped, hf, matchesKbdOrExit]
    | systemExit => simp [_wrapped, hf, matchesKbdOrExit]
    | generatorExit => simp [_wrapped, hf, matchesKbdOrExit]
    | exc e => simp [matchesException] at hc
    | otherBase n => simp [_wrapped, hf, matchesKbdOrExit]
  · intro e he hh hr
    subst he
    rw [wrapped_raise_ok rsf b f a es e hf hh hr]

/-- Witness for C10: `GeneratorExit` propagates untouched, while an
ordinary `RuntimeError` is intercepted and converted to the sentinel. -/
theorem intercepted_class_is_exactly_exception_witness :
    _wrapped wRsf wB wFuncGE 3 = ([Event.effect 3], Except.error PyCond.generatorExit)
  ∧ (_wrapped wRsf wB wFunc 5).2 = Except.ok none :=
  ⟨(intercepted_class_is_exactly_exception wRsf wB wFuncGE 3 [3]
      PyCond.generatorExit rfl).1 rfl,
   (intercepted_class_is_exactly_exception wRsf wB wFunc 5 [5]
      (PyCond.exc wExc) rfl).2 wExc rfl rfl rfl⟩

end StErrorBoundary
